import Mathlib

/-!
Verification development for the async ODBC client core described by the
repository's specification.  The repository's own library code (Connection,
Cursor, connection factory) is not present in the sources — only the example
script `examples/example_complex_queries.py` that calls it — so the data model
and the operations below are modelled from the specification's words, as the
doc comments state.  The example's concrete statements (`CREATE TABLE IF NOT
EXISTS t1(n INTEGER, v TEXT)`, `INSERT INTO t1(n, v) VALUES(?, ?)`,
`SELECT last_insert_rowid()`) are embedded as a structured statement type.
-/

namespace Aioodbc

/-- Modelled from the spec: a scalar value of a result row — the spec's rows
are ordered sequences of typed scalar values; the example uses integers and
text. -/
inductive Value where
  | intV : Int → Value
  | strV : String → Value
deriving DecidableEq, Repr

/-- Modelled from the spec: a row is an ordered sequence of scalar values. -/
abbrev Row := List Value

/-- Modelled from the spec: the error taxonomy of section 7 —
`ConnectionError`, `ClosedResourceError`, `ParameterBindingError`,
`QueryError` (carrying the driver's message verbatim), `TransactionError`,
`CursorStateError`. -/
inductive DbError where
  | connectionError
  | closedResourceError
  | parameterBindingError
  | queryError (msg : String)
  | transactionError
  | cursorStateError
deriving DecidableEq, Repr

/-- Modelled from the spec: the committed database state.  The example works
with a single table `t1(n INTEGER, v TEXT)`; `t1 = none` means the table does
not exist, `t1 = some rows` holds its committed rows in insertion order (the
implicit rowid of a row is its position plus one). -/
structure DB where
  t1 : Option (List Row)
deriving DecidableEq, Repr

/-- Modelled from the spec: the lifecycle state machine shared by Connection
and Cursor — `Unopened → Open → Closed`, with `Closed` terminal. -/
inductive ResState where
  | unopened
  | opened
  | closed
deriving DecidableEq, Repr

/-! ### Positional parameter binding -/

/-- Modelled from the spec: the statement placeholder syntax is positional `?`
markers only; this counts the binding positions of a statement text.  Named
markers such as `:name` contain no `?` and therefore contribute no binding
position. -/
def countPlaceholders (text : String) : Nat :=
  (text.toList.filter (fun c => c = '?')).length

/-- Modelled from the spec: a statement after parameter binding — the text
sent to the driver together with the values bound, left to right, to its `?`
markers.  The text is never rewritten by binding. -/
structure BoundStmt where
  text : String
  boundParams : List Value
deriving DecidableEq, Repr

/-- Modelled from the spec: positional binding of a parameter sequence to the
`?` markers of a statement text.  An arity mismatch between markers and values
fails with `ParameterBindingError`; on success the statement text is passed
through verbatim (no string interpolation) with the values attached in order.
Binding looks only at the number of values, never at their types. -/
def bindPositional (text : String) (params : List Value) :
    Except DbError BoundStmt :=
  if countPlaceholders text = params.length then
    .ok ⟨text, params⟩
  else
    .error .parameterBindingError

/-! ### Connection and statement execution -/

/-- Modelled from the spec: a Connection — owns the autocommit flag, its
lifecycle state, a working view of the database (its snapshot plus its own
pending writes), and the per-connection `last_insert_rowid` value. -/
structure Conn where
  autocommit : Bool
  st : ResState
  view : DB
  lastRowid : Option Nat
deriving DecidableEq, Repr

/-- Modelled from the spec: opening a Connection against the committed
database; the new Connection starts with the committed state as its view and
no insert performed yet. -/
def openConn (autocommit : Bool) (global : DB) : Conn :=
  ⟨autocommit, .opened, global, none⟩

/-- Modelled from the spec: the statements the example issues, embedded as a
structured statement type.  `insertT1` carries the parameter sequence bound to
the two `?` markers of `INSERT INTO t1(n, v) VALUES(?, ?);`; `malformedSql`
stands for a statement the driver rejects with the given message (the
example's `SELECT 42 AS;`). -/
inductive Stmt where
  | createT1IfNotExists
  | insertT1 (params : List Value)
  | selectAllT1
  | selectLastInsertRowid
  | malformedSql (driverMsg : String)
deriving DecidableEq, Repr

/-- The statement text of the example's parameterized insert. -/
def insertT1Text : String := "INSERT INTO t1(n, v) VALUES(?, ?);"

/-- Modelled from the spec: `CREATE TABLE IF NOT EXISTS t1(n INTEGER, v TEXT)`
on the database state — creates an empty `t1` when absent and leaves the
database unchanged, contents included, when `t1` already exists. -/
def createT1IfNotExists (db : DB) : DB :=
  match db.t1 with
  | some _ => db
  | none => ⟨some []⟩

/-- Modelled from the spec: autocommit semantics — with autocommit enabled a
successful mutation is published to the committed database at once; with it
disabled the committed state is untouched until `commit`. -/
def publish (global : DB) (c : Conn) : DB :=
  if c.autocommit then c.view else global

/-- Modelled from the spec: the outcome of a successful execute — the
committed database, the Connection after the call, and the result rows (empty
for mutations). -/
structure ExecOutcome where
  global : DB
  conn : Conn
  rows : List Row
deriving DecidableEq, Repr

/-- Modelled from the spec: statement execution on an open Connection.  A
closed or unopened Connection fails with `ClosedResourceError`; malformed SQL
fails with `QueryError` carrying the driver's message; inserts bind their
parameters positionally and assign the next rowid; `last_insert_rowid()`
reports the rowid of this Connection's last insert (0 when none). -/
def execStmt (global : DB) (c : Conn) (s : Stmt) : Except DbError ExecOutcome :=
  if c.st ≠ .opened then .error .closedResourceError
  else
    match s with
    | .createT1IfNotExists =>
        let c' := { c with view := createT1IfNotExists c.view }
        .ok ⟨publish global c', c', []⟩
    | .insertT1 params =>
        match bindPositional insertT1Text params with
        | .error e => .error e
        | .ok b =>
            match c.view.t1 with
            | none => .error (.queryError "no such table: t1")
            | some rows =>
                let c' := { c with
                              view := ⟨some (rows ++ [b.boundParams])⟩,
                              lastRowid := some (rows.length + 1) }
                .ok ⟨publish global c', c', []⟩
    | .selectAllT1 =>
        match c.view.t1 with
        | none => .error (.queryError "no such table: t1")
        | some rows => .ok ⟨global, c, rows⟩
    | .selectLastInsertRowid =>
        .ok ⟨global, c, [[Value.intV (Int.ofNat (c.lastRowid.getD 0))]]⟩
    | .malformedSql msg => .error (.queryError msg)

/-- Modelled from the spec: `commit()` flushes the Connection's pending writes
into the committed database; it fails with `ClosedResourceError` on a
Connection that is not open. -/
def commit (global : DB) (c : Conn) : Except DbError (DB × Conn) :=
  if c.st ≠ .opened then .error .closedResourceError
  else .ok (c.view, c)

/-- Modelled from the spec: `rollback()` discards the Connection's pending
writes, restoring its view to the committed database. -/
def rollback (global : DB) (c : Conn) : Except DbError (DB × Conn) :=
  if c.st ≠ .opened then .error .closedResourceError
  else .ok (global, { c with view := global })

/-- Modelled from the spec: closing a Connection releases the session without
publishing pending writes — data inserted but not committed is lost; the
committed database is returned unchanged. -/
def closeConn (global : DB) (c : Conn) : DB × Conn :=
  (global, { c with st := .closed })

/-! ### Cursor -/

/-- Modelled from the spec: a Cursor — its lifecycle state, whether an execute
has been issued on it yet, and the buffer of unread result rows of the last
execute. -/
structure Cursor where
  st : ResState
  executed : Bool
  buffer : List Row
deriving DecidableEq, Repr

/-- Modelled from the spec: a fresh Cursor created by an open Connection — no
execute has been issued and no rows are buffered. -/
def newCursor : Cursor := ⟨.opened, false, []⟩

/-- Modelled from the spec: loading an execute's result rows into the Cursor,
replacing any prior result set. -/
def loadResult (cur : Cursor) (rows : List Row) : Cursor :=
  { cur with executed := true, buffer := rows }

/-- Modelled from the spec: `fetchOne` — returns the next unread row, or an
empty result (`none`, not an error) when no rows remain; fails with
`CursorStateError` when called before any execute, and with
`ClosedResourceError` on a Cursor that is not open. -/
def fetchone (cur : Cursor) : Except DbError (Option Row × Cursor) :=
  if cur.st ≠ .opened then .error .closedResourceError
  else if cur.executed = false then .error .cursorStateError
  else
    match cur.buffer with
    | [] => .ok (none, cur)
    | r :: rs => .ok (some r, { cur with buffer := rs })

/-! ### Closed-state behaviour and idempotent close -/

/-- Modelled from the spec: a data operation against a lifecycle state —
succeeds (leaving the state Open) only while Open, and otherwise reports
`ClosedResourceError` without changing the state. -/
def tryDataOp (st : ResState) : ResState × Option DbError :=
  match st with
  | .opened => (.opened, none)
  | s => (s, some .closedResourceError)

/-- Modelled from the spec: `close()` on a lifecycle state — always succeeds,
also on an already-closed resource (idempotent), and lands in the terminal
Closed state. -/
def closeRes (st : ResState) : ResState × Option DbError :=
  (.closed, none)

/-- Modelled from the spec: a Connection together with the lifecycle states of
the Cursors derived from it. -/
structure Session where
  connSt : ResState
  cursors : List ResState
deriving DecidableEq, Repr

/-- An observable close event: which resource was released. -/
inductive CloseEvent where
  | cursorClosed (i : Nat)
  | connClosed
deriving DecidableEq, Repr

/-- Modelled from the spec: closing a Connection closes all derived Cursors
first, then releases the driver session; the emitted events record the
order. -/
def closeSession (s : Session) : Session × List CloseEvent :=
  (⟨.closed, s.cursors.map (fun _ => .closed)⟩,
   ((List.range s.cursors.length).map .cursorClosed) ++ [.connClosed])

/-! ### Scoped acquisition -/

/-- Modelled from the spec: the three ways a scope can exit — normal
completion, error, or cancellation. -/
inductive Outcome (α : Type) where
  | ok (a : α)
  | errOut (e : DbError)
  | cancelled
deriving DecidableEq, Repr

/-- A resource instrumented with a count of how many times its release has
run, for stating the exactly-once-release contract. -/
structure Tracked where
  st : ResState
  closeCount : Nat
deriving DecidableEq, Repr

/-- A freshly acquired tracked resource. -/
def acquireTracked : Tracked := ⟨.opened, 0⟩

/-- Releasing a tracked resource: it lands in Closed and the release counter
advances. -/
def closeTracked (r : Tracked) : Tracked := ⟨.closed, r.closeCount + 1⟩

/-- Modelled from the spec: scoped acquisition — acquire the resource, run the
body, and run the release on the way out whatever the body's outcome was
(normal, error, or cancellation); the outcome itself is surfaced unchanged. -/
def withScoped {α : Type} (body : Tracked → Tracked × Outcome α) :
    Tracked × Outcome α :=
  let r := acquireTracked
  let (r1, out) := body r
  (closeTracked r1, out)

/-! ### Connection factory -/

/-- Modelled from the spec: the configuration options a factory captures —
echo/logging and autocommit, each possibly left unset. -/
structure Options where
  echo : Option Bool
  autocommit : Option Bool
deriving DecidableEq, Repr

/-- Modelled from the spec: merging per-call overrides into captured defaults,
with the overrides taking precedence where set. -/
def mergeOpts (defaults overrides : Options) : Options :=
  ⟨(overrides.echo).orElse (fun _ => defaults.echo),
   (overrides.autocommit).orElse (fun _ => defaults.autocommit)⟩

/-- Modelled from the spec: a connection factory — the descriptor and the
default options, captured once at creation. -/
structure Factory where
  descriptor : String
  defaults : Options
deriving DecidableEq, Repr

/-- Modelled from the spec: building a factory captures the descriptor and the
default options. -/
def makeFactory (d : String) (o : Options) : Factory := ⟨d, o⟩

/-- A Connection as produced by a factory call: its configuration and its own
working view of the database. -/
structure FConn where
  descriptor : String
  opts : Options
  view : DB
deriving DecidableEq, Repr

/-- A world of live factory-produced Connections, keyed by fresh identifiers;
used to state that Connections produced by a factory share no mutable
state. -/
structure World where
  nextId : Nat
  conns : List (Nat × FConn)
deriving DecidableEq, Repr

/-- Modelled from the spec: invoking the factory opens a fresh Connection
whose configuration merges the per-call overrides into the captured defaults;
the new Connection gets a fresh identifier and its own state. -/
def callFactory (f : Factory) (overrides : Options) (g : DB) (w : World) :
    World × Nat :=
  (⟨w.nextId + 1, (w.nextId, ⟨f.descriptor, mergeOpts f.defaults overrides, g⟩) :: w.conns⟩,
   w.nextId)

/-- Look up a live Connection by identifier. -/
def lookupConn (w : World) (i : Nat) : Option FConn :=
  ((w.conns).find? (fun p => p.1 == i)).map Prod.snd

/-- Apply a state mutation to the Connection with the given identifier,
leaving every other Connection untouched. -/
def mutateConn (w : World) (i : Nat) (g : FConn → FConn) : World :=
  ⟨w.nextId, (w.conns).map (fun p => if p.1 = i then (p.1, g p.2) else p)⟩

/-! ### Helper lemmas -/

/-- The example's insert text has exactly two positional markers. -/
theorem insertT1Text_two_markers : countPlaceholders insertT1Text = 2 := by
  decide

/-- Binding any two values to the example's insert succeeds, whatever the
values' types. -/
theorem bind_insertT1 (p : List Value) (hp : p.length = 2) :
    bindPositional insertT1Text p = .ok ⟨insertT1Text, p⟩ := by
  simp [bindPositional, insertT1Text_two_markers, hp]

/-- Creating `t1` when absent is absorbed by a second run. -/
theorem createT1_idem (db : DB) :
    createT1IfNotExists (createT1IfNotExists db) = createT1IfNotExists db := by
  cases db with
  | mk t => cases t <;> rfl

/-! ### Claims -/

/-- C2: parameter values are substituted via positional `?` markers bound left
to right to the supplied sequence — on success the statement text reaches the
driver verbatim with the parameter list attached unchanged (no string
interpolation), an arity mismatch fails with `ParameterBindingError`, and a
named-marker text such as `VALUES(:n, :v)` has no binding positions, so named
placeholders are unsupported. -/
theorem execute_binds_positionally (text : String) (params : List Value) :
    (countPlaceholders text = params.length →
      bindPositional text params = .ok ⟨text, params⟩) ∧
    (countPlaceholders text ≠ params.length →
      bindPositional text params = .error .parameterBindingError) ∧
    countPlaceholders "INSERT INTO t1(n, v) VALUES(:n, :v);" = 0 := by
  refine ⟨fun h => ?_, fun h => ?_, by decide⟩ <;>
    simp [bindPositional, h]

/-- Witness for C2 at the example's insert and parameters. -/
theorem execute_binds_positionally_witness :
    bindPositional insertT1Text [Value.strV "2", Value.strV "test 2"] =
      .ok ⟨insertT1Text, [Value.strV "2", Value.strV "test 2"]⟩ :=
  (execute_binds_positionally insertT1Text
    [Value.strV "2", Value.strV "test 2"]).1 (by decide)

/-- C7: on a Cursor that has executed, `fetchone` returns the next unread row,
and an empty result — not an error — when zero rows remain; on a Cursor with
no execute yet it fails with `CursorStateError`. -/
theorem fetchone_next_or_empty (cur : Cursor) (hop : cur.st = .opened) :
    (cur.executed = true →
      fetchone cur = .ok (cur.buffer.head?, { cur with buffer := cur.buffer.tail })) ∧
    (cur.executed = true → cur.buffer = [] → fetchone cur = .ok (none, cur)) ∧
    (cur.executed = false → fetchone cur = .error .cursorStateError) := by
  obtain ⟨cst, cex, cbuf⟩ := cur
  obtain rfl : cst = ResState.opened := hop
  refine ⟨fun hex => ?_, fun hex hb => ?_, fun hex => ?_⟩
  · obtain rfl : cex = true := hex
    cases cbuf <;> simp [fetchone]
  · obtain rfl : cex = true := hex
    obtain rfl : cbuf = [] := hb
    simp [fetchone]
  · obtain rfl : cex = false := hex
    simp [fetchone]

/-- Witness for C7 on a Cursor holding one unread row. -/
theorem fetchone_next_or_empty_witness :
    fetchone ⟨.opened, true, [[Value.intV 1]]⟩ =
      .ok (some [Value.intV 1], ⟨.opened, true, []⟩) := by
  have h := (fetchone_next_or_empty ⟨.opened, true, [[Value.intV 1]]⟩ rfl).1 rfl
  simpa using h

/-- C9: database initialization is idempotent — running the
`CREATE TABLE IF NOT EXISTS t1` step any positive number of times equals
running it once, a run on a database where `t1` already exists changes nothing
(contents included), and the statement always succeeds on an open
Connection. -/
theorem init_database_idempotent (db : DB) :
    (∀ n : Nat, createT1IfNotExists^[n + 1] db = createT1IfNotExists db) ∧
    (∀ rows, db.t1 = some rows → createT1IfNotExists db = db) ∧
    (∀ (g : DB) (c : Conn), c.st = .opened →
      ∃ out, execStmt g c .createT1IfNotExists = .ok out) := by
  refine ⟨fun n => ?_, fun rows hr => ?_, fun g c hc => ?_⟩
  · induction n with
    | zero => simp
    | succ m ih =>
        rw [Function.iterate_succ_apply', ih, createT1_idem]
  · cases db with
    | mk t => cases t with
      | none => simp at hr
      | some r => rfl
  · exact ⟨⟨publish g { c with view := createT1IfNotExists c.view },
            { c with view := createT1IfNotExists c.view }, []⟩,
          by simp [execStmt, hc]⟩

/-- Witness for C9: a second initialization of the fresh database is
absorbed. -/
theorem init_database_idempotent_witness :
    createT1IfNotExists^[2] (DB.mk none) = createT1IfNotExists (DB.mk none) :=
  (init_database_idempotent (DB.mk none)).1 1

/-- C1: with autocommit enabled, a successful mutating execute is persisted in
the committed database with no commit call, and a Connection opened afterward
sees the row; with autocommit disabled, the inserted row is visible in the
same Connection's view but absent from the committed database and from a
Connection opened afterward, until `commit()` publishes it, after which a
fresh Connection sees it. -/
theorem autocommit_visibility (global : DB) (rows : List Row) (p : List Value)
    (hp : p.length = 2) (ht : global.t1 = some rows) :
    (∃ out, execStmt global (openConn true global) (.insertT1 p) = .ok out ∧
      out.global.t1 = some (rows ++ [p]) ∧
      (openConn false out.global).view.t1 = some (rows ++ [p])) ∧
    (∃ out, execStmt global (openConn false global) (.insertT1 p) = .ok out ∧
      out.global = global ∧
      out.conn.view.t1 = some (rows ++ [p]) ∧
      (openConn false out.global).view.t1 = some rows ∧
      ∃ g2 c2, commit out.global out.conn = .ok (g2, c2) ∧
        g2.t1 = some (rows ++ [p]) ∧
        (openConn false g2).view.t1 = some (rows ++ [p])) := by
  constructor
  · refine ⟨⟨⟨some (rows ++ [p])⟩,
        { openConn true global with
            view := ⟨some (rows ++ [p])⟩, lastRowid := some (rows.length + 1) },
        []⟩, ?_, by simp, by simp [openConn]⟩
    simp [execStmt, openConn, bind_insertT1 p hp, ht, publish]
  · refine ⟨⟨global,
        { openConn false global with
            view := ⟨some (rows ++ [p])⟩, lastRowid := some (rows.length + 1) },
        []⟩, ?_, rfl, by simp, by simp [openConn, ht], ?_⟩
    · simp [execStmt, openConn, bind_insertT1 p hp, ht, publish]
    · exact ⟨⟨some (rows ++ [p])⟩,
        { openConn false global with
            view := ⟨some (rows ++ [p])⟩, lastRowid := some (rows.length + 1) },
        by simp [commit, openConn], by simp, by simp [openConn]⟩

/-- Witness for C1 on the empty committed table and the example's
parameters. -/
theorem autocommit_visibility_witness :
    ∃ out, execStmt ⟨some []⟩ (openConn true ⟨some []⟩)
        (.insertT1 [Value.strV "2", Value.strV "test 2"]) = .ok out ∧
      out.global.t1 = some [[Value.strV "2", Value.strV "test 2"]] ∧
      (openConn false out.global).view.t1 =
        some [[Value.strV "2", Value.strV "test 2"]] := by
  have h := (autocommit_visibility ⟨some []⟩ []
    [Value.strV "2", Value.strV "test 2"] (by decide) rfl).1
  simpa using h

/-- The C4 scenario, stepped through the model: open a Connection with
autocommit on against a fresh database, create `t1`, insert `(2, 'test 2')`
with string parameters, then run `SELECT last_insert_rowid()` and fetch,
returning the result rows and the fetched row. -/
def scenarioC4 : Except DbError (List Row × Option Row) :=
  let g0 : DB := ⟨none⟩
  let c0 := openConn true g0
  match execStmt g0 c0 .createT1IfNotExists with
  | .error e => .error e
  | .ok o1 =>
      match execStmt o1.global o1.conn
          (.insertT1 [Value.strV "2", Value.strV "test 2"]) with
      | .error e => .error e
      | .ok o2 =>
          match execStmt o2.global o2.conn .selectLastInsertRowid with
          | .error e => .error e
          | .ok o3 =>
              match fetchone (loadResult newCursor o3.rows) with
              | .error e => .error e
              | .ok (r, _) => .ok (o3.rows, r)

/-- C4: in the scenario autocommit=true → create `t1` → insert `(2,'test 2')`
→ `SELECT last_insert_rowid()`, the result is a single row holding the
integer 1, and `fetchone` returns that row. -/
theorem scenario_last_insert_rowid :
    scenarioC4 = .ok ([[Value.intV 1]], some [Value.intV 1]) := by
  rfl

/-- The string conversion the example applies to its mixed-type values before
binding (Python's `map(str, values)`): every value becomes text. -/
def strOfValue : Value → Value
  | .intV n => .strV (toString n)
  | .strV s => .strV s

/-- C10: string-typed parameters are accepted for the INTEGER column `n` of
`t1` — both example inserts, one with the literal string pair
`('2', 'test 2')` and one with `map str` over the mixed pair `(3, 'test 3')`,
execute without any binding or type error, and binding accepts any two values
regardless of their types. -/
theorem string_params_accepted (global : DB) (rows : List Row)
    (ht : global.t1 = some rows) :
    (∃ out, execStmt global (openConn true global)
        (.insertT1 [Value.strV "2", Value.strV "test 2"]) = .ok out ∧
      out.conn.view.t1 = some (rows ++ [[Value.strV "2", Value.strV "test 2"]])) ∧
    ([Value.intV 3, Value.strV "test 3"].map strOfValue =
      [Value.strV "3", Value.strV "test 3"]) ∧
    (∃ out, execStmt global (openConn true global)
        (.insertT1 ([Value.intV 3, Value.strV "test 3"].map strOfValue)) = .ok out ∧
      out.conn.view.t1 = some (rows ++ [[Value.strV "3", Value.strV "test 3"]])) ∧
    (∀ p : List Value, p.length = 2 →
      bindPositional insertT1Text p = .ok ⟨insertT1Text, p⟩) := by
  refine ⟨?_, by decide, ?_, fun p hp => bind_insertT1 p hp⟩
  · refine ⟨⟨⟨some (rows ++ [[Value.strV "2", Value.strV "test 2"]])⟩,
        { openConn true global with
            view := ⟨some (rows ++ [[Value.strV "2", Value.strV "test 2"]])⟩,
            lastRowid := some (rows.length + 1) }, []⟩, ?_, by simp⟩
    simp [execStmt, openConn,
      bind_insertT1 [Value.strV "2", Value.strV "test 2"] (by decide), ht,
      publish]
  · refine ⟨⟨⟨some (rows ++ [[Value.strV "3", Value.strV "test 3"]])⟩,
        { openConn true global with
            view := ⟨some (rows ++ [[Value.strV "3", Value.strV "test 3"]])⟩,
            lastRowid := some (rows.length + 1) }, []⟩, ?_, by simp⟩
    simp [execStmt, openConn, strOfValue,
      show (toString (3 : Int)) = "3" from rfl,
      bind_insertT1 [Value.strV "3", Value.strV "test 3"] (by decide), ht,
      publish]

/-- Witness for C10 on the empty committed table. -/
theorem string_params_accepted_witness :
    ∃ out, execStmt ⟨some []⟩ (openConn true ⟨some []⟩)
        (.insertT1 [Value.strV "2", Value.strV "test 2"]) = .ok out ∧
      out.conn.view.t1 = some [[Value.strV "2", Value.strV "test 2"]] := by
  have h := (string_params_accepted ⟨some []⟩ [] rfl).1
  simpa using h

/-- Modelled from the spec: the core invokes the driver exactly once per
execute call and performs no silent retries; the driver attempt count is
reported alongside the result. -/
def executeWithAttempts (global : DB) (c : Conn) (s : Stmt) :
    Nat × Except DbError ExecOutcome :=
  (1, execStmt global c s)

/-- C6: executing malformed SQL fails with `QueryError` carrying the driver's
original message verbatim, the error surfaces to the caller, and the driver
was invoked exactly once — no silent retry. -/
theorem malformed_sql_query_error (g : DB) (c : Conn) (msg : String)
    (hc : c.st = .opened) :
    executeWithAttempts g c (.malformedSql msg) =
      (1, .error (.queryError msg)) := by
  simp [executeWithAttempts, execStmt, hc]

/-- Witness for C6 at the example's malformed statement `SELECT 42 AS;`. -/
theorem malformed_sql_query_error_witness :
    executeWithAttempts ⟨none⟩ (openConn true ⟨none⟩)
        (.malformedSql "syntax error near AS") =
      (1, .error (.queryError "syntax error near AS")) :=
  malformed_sql_query_error ⟨none⟩ (openConn true ⟨none⟩)
    "syntax error near AS" rfl

/-- C5: the Closed lifecycle state is terminal and close is idempotent — a
data operation from Closed fails with `ClosedResourceError` however many calls
precede it and never leaves Closed, `close()` on an already-closed resource
succeeds without error, and closing a Connection first emits a close for every
derived Cursor, with the Connection's own release strictly last, leaving every
Cursor and the Connection Closed; re-closing the session changes nothing. -/
theorem closed_state_machine (s : Session) (n : Nat) :
    (tryDataOp ((fun st => (tryDataOp st).1)^[n] .closed) =
      (.closed, some .closedResourceError)) ∧
    closeRes .closed = (.closed, none) ∧
    ((closeSession s).1.connSt = .closed ∧
      ∀ st ∈ (closeSession s).1.cursors, st = .closed) ∧
    (closeSession (closeSession s).1).1 = (closeSession s).1 ∧
    (closeSession s).2.getLast? = some .connClosed ∧
    (∀ e ∈ (closeSession s).2.dropLast, ∃ i, e = .cursorClosed i) ∧
    (∀ i < s.cursors.length, CloseEvent.cursorClosed i ∈ (closeSession s).2) := by
  have hiter : (fun st => (tryDataOp st).1)^[n] ResState.closed = .closed := by
    induction n with
    | zero => rfl
    | succ m ih => rw [Function.iterate_succ_apply', ih]; rfl
  refine ⟨by rw [hiter]; rfl, rfl, ⟨rfl, ?_⟩, ?_, ?_, ?_, ?_⟩
  · intro st hst
    simp [closeSession] at hst
    exact hst.2
  · simp [closeSession, List.map_map]
  · simp [closeSession]
  · intro e he
    rw [show (closeSession s).2 =
          ((List.range s.cursors.length).map CloseEvent.cursorClosed) ++
            [CloseEvent.connClosed] from rfl,
        List.dropLast_concat] at he
    obtain ⟨i, _, rfl⟩ := List.mem_map.mp he
    exact ⟨i, rfl⟩
  · intro i hi
    show CloseEvent.cursorClosed i ∈
      ((List.range s.cursors.length).map CloseEvent.cursorClosed) ++
        [CloseEvent.connClosed]
    exact List.mem_append.mpr
      (Or.inl (List.mem_map.mpr ⟨i, List.mem_range.mpr hi, rfl⟩))

/-- Witness for C5 on a session with two open Cursors. -/
theorem closed_state_machine_witness :
    tryDataOp ResState.closed = (.closed, some .closedResourceError) ∧
    (closeSession ⟨.opened, [.opened, .opened]⟩).1 =
      ⟨.closed, [.closed, .closed]⟩ := by
  have h := closed_state_machine ⟨.opened, [.opened, .opened]⟩ 0
  exact ⟨h.1, rfl⟩

/-- C3: scoped acquisition runs the release exactly once on every exit path —
whatever the body does short of releasing the resource itself, and whether its
outcome is normal completion, an error, or cancellation, the resource ends
Closed with its release counter at one, and the body's outcome is surfaced
unchanged. -/
theorem scoped_release_exactly_once {α : Type}
    (body : Tracked → Tracked × Outcome α)
    (hbody : ∀ r, ((body r).1).closeCount = r.closeCount) :
    ((withScoped body).1).closeCount = 1 ∧
    ((withScoped body).1).st = .closed ∧
    (withScoped body).2 = (body acquireTracked).2 := by
  refine ⟨?_, rfl, rfl⟩
  show ((body acquireTracked).1).closeCount + 1 = 1
  rw [hbody acquireTracked]
  rfl

/-- Witness for C3: a body that is cancelled mid-flight still gets exactly one
release. -/
theorem scoped_release_exactly_once_witness :
    ((withScoped (fun r => (r, (Outcome.cancelled : Outcome Unit)))).1).closeCount
      = 1 :=
  (scoped_release_exactly_once (fun r => (r, Outcome.cancelled))
    (fun _ => rfl)).1

/-- C8: a factory captures its descriptor and default options once; each
invocation opens a fresh Connection (two calls yield distinct identifiers)
whose configuration merges the captured defaults with the per-call overrides,
overrides taking precedence where set; and the Connections share no mutable
state — mutating either one leaves the other's stored state untouched. -/
theorem factory_fresh_merged_connections (d : String) (o ov1 ov2 : Options)
    (g : DB) (w : World) :
    (makeFactory d o).descriptor = d ∧
    (makeFactory d o).defaults = o ∧
    (callFactory (makeFactory d o) ov1 g w).2 ≠
      (callFactory (makeFactory d o) ov2 g
        (callFactory (makeFactory d o) ov1 g w).1).2 ∧
    lookupConn (callFactory (makeFactory d o) ov2 g
        (callFactory (makeFactory d o) ov1 g w).1).1
      (callFactory (makeFactory d o) ov1 g w).2 =
      some ⟨d, mergeOpts o ov1, g⟩ ∧
    lookupConn (callFactory (makeFactory d o) ov2 g
        (callFactory (makeFactory d o) ov1 g w).1).1
      (callFactory (makeFactory d o) ov2 g
        (callFactory (makeFactory d o) ov1 g w).1).2 =
      some ⟨d, mergeOpts o ov2, g⟩ ∧
    (∀ b, (mergeOpts o ⟨some b, o.autocommit⟩).echo = some b) ∧
    (∀ m : FConn → FConn,
      lookupConn
        (mutateConn (callFactory (makeFactory d o) ov2 g
            (callFactory (makeFactory d o) ov1 g w).1).1
          (callFactory (makeFactory d o) ov1 g w).2 m)
        (callFactory (makeFactory d o) ov2 g
          (callFactory (makeFactory d o) ov1 g w).1).2 =
      some ⟨d, mergeOpts o ov2, g⟩) ∧
    (∀ m : FConn → FConn,
      lookupConn
        (mutateConn (callFactory (makeFactory d o) ov2 g
            (callFactory (makeFactory d o) ov1 g w).1).1
          (callFactory (makeFactory d o) ov2 g
            (callFactory (makeFactory d o) ov1 g w).1).2 m)
        (callFactory (makeFactory d o) ov1 g w).2 =
      some ⟨d, mergeOpts o ov1, g⟩) := by
  have hbeq : (w.nextId + 1 == w.nextId) = false :=
    beq_eq_false_iff_ne.mpr (Nat.succ_ne_self w.nextId)
  refine ⟨rfl, rfl, by simp [callFactory], ?_, ?_, fun b => by
    simp [mergeOpts, Option.orElse], fun m => ?_, fun m => ?_⟩
  · simp [callFactory, makeFactory, lookupConn, List.find?, hbeq]
  · simp [callFactory, makeFactory, lookupConn, List.find?]
  · simp [callFactory, makeFactory, lookupConn, mutateConn, List.find?,
      hbeq, Nat.succ_ne_self]
  · simp [callFactory, makeFactory, lookupConn, mutateConn, List.find?,
      hbeq, Nat.succ_ne_self]

/-- Witness for C8: two concrete factory calls, the first Connection's stored
configuration merging autocommit=false over the captured defaults. -/
theorem factory_fresh_merged_connections_witness :
    lookupConn (callFactory (makeFactory "dsn" ⟨some true, some true⟩)
        ⟨none, none⟩ ⟨none⟩
        (callFactory (makeFactory "dsn" ⟨some true, some true⟩)
          ⟨none, some false⟩ ⟨none⟩ ⟨0, []⟩).1).1
      (callFactory (makeFactory "dsn" ⟨some true, some true⟩)
        ⟨none, some false⟩ ⟨none⟩ ⟨0, []⟩).2 =
      some ⟨"dsn", mergeOpts ⟨some true, some true⟩ ⟨none, some false⟩, ⟨none⟩⟩ :=
  (factory_fresh_merged_connections "dsn" ⟨some true, some true⟩
    ⟨none, some false⟩ ⟨none, none⟩ ⟨none⟩ ⟨0, []⟩).2.2.2.1

end Aioodbc
